import Mathlib

/-!
Verification of the g6 member-management / social-login subsystem.

The definitions below are a shallow embedding of the Python sources:
  * `_bbs/social.py`    — social login callback, social registration,
                          `SocialAuthService.g5_convert_social_id`
  * `_admin/admin_member.py` — administrator member insert/update handler

Machine integers are `Nat` with explicit `% 2 ^ 32` masking where the Python
code relies on 32-bit semantics (`hashlib.md5`, `zlib.adler32`); database
tables are lists of rows; SQLAlchemy `.first()` queries are `List.find?`;
raised `AlertException` / `HTTPException` become explicit outcome values
paired with the (unchanged) database state.
-/

namespace G6

/-! ## Hex rendering (Python `hexdigest` / `hex(n)[2:]`) -/

/-- One lowercase hex digit, `0..9a..f`, for `n < 16`. -/
def toHexDigit (n : Nat) : Char :=
  if n < 10 then Char.ofNat (48 + n) else Char.ofNat (87 + n)

/-- Hex digits of `n`, most significant first, empty for `0`;
`fuel` bounds the recursion (`fuel ≥` number of digits suffices). -/
def natToHexCore : Nat → Nat → List Char
  | 0, _ => []
  | fuel + 1, n => if n = 0 then [] else natToHexCore fuel (n / 16) ++ [toHexDigit (n % 16)]

/-- Python `hex(n)[2:]`: lowercase hex, no `0x`, no leading-zero padding,
`"0"` for zero. -/
def natToHex (n : Nat) : String :=
  if n = 0 then "0" else String.mk (natToHexCore (n + 1) n)

/-- Two lowercase hex digits of a byte (`b < 256`), zero-padded. -/
def byteToHex (b : Nat) : List Char :=
  [toHexDigit (b / 16), toHexDigit (b % 16)]

/-! ## UTF-8 encoding (Python `str.encode()`) -/

/-- UTF-8 bytes of one character. -/
def utf8EncodeChar (c : Char) : List Nat :=
  let n := c.toNat
  if n < 128 then [n]
  else if n < 2048 then [192 + n / 64, 128 + n % 64]
  else if n < 65536 then [224 + n / 4096, 128 + n / 64 % 64, 128 + n % 64]
  else [240 + n / 262144, 128 + n / 4096 % 64, 128 + n / 64 % 64, 128 + n % 64]

/-- UTF-8 bytes of a string (Python `s.encode()`). -/
def strBytes (s : String) : List Nat :=
  s.data.foldr (fun c acc => utf8EncodeChar c ++ acc) []

/-! ## MD5 (`hashlib.md5`) -/

/-- The 64 MD5 round constants `K[i] = floor(abs(sin(i+1)) * 2^32)`. -/
def md5K : List Nat :=
  [3614090360, 3905402710, 606105819, 3250441966, 4118548399, 1200080426, 2821735955, 4249261313,
   1770035416, 2336552879, 4294925233, 2304563134, 1804603682, 4254626195, 2792965006, 1236535329,
   4129170786, 3225465664, 643717713, 3921069994, 3593408605, 38016083, 3634488961, 3889429448,
   568446438, 3275163606, 4107603335, 1163531501, 2850285829, 4243563512, 1735328473, 2368359562,
   4294588738, 2272392833, 1839030562, 4259657740, 2763975236, 1272893353, 4139469664, 3200236656,
   681279174, 3936430074, 3572445317, 76029189, 3654602809, 3873151461, 530742520, 3299628645,
   4096336452, 1126891415, 2878612391, 4237533241, 1700485571, 2399980690, 4293915773, 2240044497,
   1873313359, 4264355552, 2734768916, 1309151649, 4149444226, 3174756917, 718787259, 3951481745]

/-- The 64 MD5 per-round left-rotation amounts. -/
def md5S : List Nat :=
  [7, 12, 17, 22, 7, 12, 17, 22, 7, 12, 17, 22, 7, 12, 17, 22,
   5, 9, 14, 20, 5, 9, 14, 20, 5, 9, 14, 20, 5, 9, 14, 20,
   4, 11, 16, 23, 4, 11, 16, 23, 4, 11, 16, 23, 4, 11, 16, 23,
   6, 10, 15, 21, 6, 10, 15, 21, 6, 10, 15, 21, 6, 10, 15, 21]

/-- 32-bit left rotation on `Nat` (values kept below `2 ^ 32`). -/
def rotl32 (x s : Nat) : Nat :=
  (x * 2 ^ s + x / 2 ^ (32 - s)) % 2 ^ 32

/-- 32-bit complement. -/
def not32 (x : Nat) : Nat := 4294967295 - x

/-- Little-endian 32-bit word `j` of a 64-byte chunk. -/
def chunkWord (chunk : List Nat) (j : Nat) : Nat :=
  chunk.getD (4 * j) 0 + chunk.getD (4 * j + 1) 0 * 256 +
    chunk.getD (4 * j + 2) 0 * 65536 + chunk.getD (4 * j + 3) 0 * 16777216

/-- One MD5 round `i` on state `(A, B, C, D)` over chunk words. -/
def md5Round (chunk : List Nat) (st : Nat × Nat × Nat × Nat) (i : Nat) :
    Nat × Nat × Nat × Nat :=
  let (a, b, c, d) := st
  let (f, g) :=
    if i < 16 then ((b &&& c) ||| (not32 b &&& d), i)
    else if i < 32 then ((d &&& b) ||| (not32 d &&& c), (5 * i + 1) % 16)
    else if i < 48 then (b ^^^ c ^^^ d, (3 * i + 5) % 16)
    else (c ^^^ (b ||| not32 d), 7 * i % 16)
  let f := (f + a + md5K.getD i 0 + chunkWord chunk g) % 2 ^ 32
  (d, (b + rotl32 f (md5S.getD i 0)) % 2 ^ 32, b, c)

/-- Process one 64-byte chunk: run 64 rounds, add to the incoming state. -/
def md5ProcessChunk (st : Nat × Nat × Nat × Nat) (chunk : List Nat) :
    Nat × Nat × Nat × Nat :=
  let (a0, b0, c0, d0) := st
  let (a, b, c, d) := (List.range 64).foldl (md5Round chunk) (a0, b0, c0, d0)
  ((a0 + a) % 2 ^ 32, (b0 + b) % 2 ^ 32, (c0 + c) % 2 ^ 32, (d0 + d) % 2 ^ 32)

/-- Process `n` chunks of 64 bytes taken from the front of `bytes`. -/
def md5ProcessChunks : Nat → List Nat → Nat × Nat × Nat × Nat → Nat × Nat × Nat × Nat
  | 0, _, st => st
  | n + 1, bytes, st => md5ProcessChunks n (bytes.drop 64) (md5ProcessChunk st (bytes.take 64))

/-- MD5 padding: `0x80`, then zeros until the length is 56 mod 64, then the
bit length as 64-bit little-endian; `(119 - len % 64) % 64` is the
`Nat`-safe form of `(55 - len % 64) mod 64`, so the padded length is always
a multiple of 64 — also for message lengths of 56 to 63 mod 64, where the
zero run wraps to 63..56 bytes. -/
def md5Pad (msg : List Nat) : List Nat :=
  let len := msg.length
  let zeros := (119 - len % 64) % 64
  let bitLen := len * 8 % 2 ^ 64
  msg ++ [128] ++ List.replicate zeros 0 ++
    (List.range 8).map (fun i => bitLen / 2 ^ (8 * i) % 256)

/-- Little-endian bytes of a 32-bit word. -/
def wordBytes (w : Nat) : List Nat :=
  [w % 256, w / 256 % 256, w / 65536 % 256, w / 16777216 % 256]

/-- MD5 digest (16 bytes) of a byte sequence. -/
def md5Digest (msg : List Nat) : List Nat :=
  let padded := md5Pad msg
  let (a, b, c, d) :=
    md5ProcessChunks (padded.length / 64) padded (1732584193, 4023233417, 2562383102, 271733878)
  wordBytes a ++ wordBytes b ++ wordBytes c ++ wordBytes d

/-- Python `hashlib.md5(s.encode()).hexdigest()`: the 32-character lowercase
hex rendering of the MD5 digest of the UTF-8 bytes of `s`. -/
def md5Hex (s : String) : String :=
  String.mk ((md5Digest (strBytes s)).foldr (fun b acc => byteToHex b ++ acc) [])

/-! ## Adler-32 (`zlib.adler32`) -/

/-- Adler-32 checksum of a byte sequence, starting value 1. -/
def adler32 (bytes : List Nat) : Nat :=
  let (a, b) := bytes.foldl (fun (p : Nat × Nat) byte =>
    let a := (p.1 + byte) % 65521
    (a, (p.2 + a) % 65521)) (1, 0)
  b * 65536 + a

/-! ## `SocialAuthService.g5_convert_social_id` (`_bbs/social.py` 340-355) -/

/-- `g5_convert_social_id(identifier, provider)`:
`f"{provider}_{hex(zlib.adler32(hashlib.md5(identifier.encode()).hexdigest().encode()))[2:]}"`. -/
def g5_convert_social_id (identifier : String) (provider : String) : String :=
  let md5_hash := md5Hex identifier
  let adler32_hash := adler32 (strBytes md5_hash)
  provider ++ "_" ++ natToHex adler32_hash

example : md5Hex "12345" = "827ccb0eea8a706c4c34a16891f84e7b" := by decide
example : g5_convert_social_id "12345" "naver" = "naver_968d08f6" := by decide
example : md5Hex "" = "d41d8cd98f00b204e9800998ecf8427e" := by decide
example : md5Hex "abc" = "900150983cd24fb0d6963f7d28e17f72" := by decide

/-! ## Data model

`models.Member` and `models.MemberSocialProfiles` rows (`models.py` is an ORM
collaborator outside this subsystem; the fields below are exactly those the
handlers read or write, `Option` where the admin insert path can store SQL
NULL, with structure defaults standing for the ORM column defaults of columns
a handler leaves untouched). -/

structure Member where
  mb_id : String := ""
  mb_password : String := ""
  mb_name : Option String := none
  mb_nick : Option String := none
  mb_nick_date : Option String := none
  mb_level : Option Int := none
  mb_email : Option String := none
  mb_homepage : Option String := none
  mb_hp : Option String := none
  mb_tel : Option String := none
  mb_certify : Option String := none
  mb_adult : Option Int := none
  mb_zip1 : Option String := none
  mb_zip2 : Option String := none
  mb_addr1 : Option String := none
  mb_addr2 : Option String := none
  mb_addr3 : Option String := none
  mb_mailling : Option Int := none
  mb_sms : Option Int := none
  mb_open : Option Int := none
  mb_signature : Option String := none
  mb_profile : Option String := none
  mb_memo : Option String := none
  mb_intercept_date : Option String := none
  mb_leave_date : Option String := none
  mb_1 : Option String := none
  mb_2 : Option String := none
  mb_3 : Option String := none
  mb_4 : Option String := none
  mb_5 : Option String := none
  mb_6 : Option String := none
  mb_7 : Option String := none
  mb_8 : Option String := none
  mb_9 : Option String := none
  mb_10 : Option String := none
  mb_today_login : Option String := none
  mb_datetime : Option String := none
  deriving DecidableEq, Repr

/-- One `MemberSocialProfiles` row. -/
structure MemberSocialProfiles where
  mb_id : String := ""
  provider : String := ""
  identifier : String := ""
  nickname : String := ""
  profile_url : String := ""
  photourl : String := ""
  object_sha : String := ""
  mp_register_day : String := ""
  deriving DecidableEq, Repr

/-- The database: the two tables this subsystem touches. -/
structure DB where
  members : List Member := []
  profiles : List MemberSocialProfiles := []
  deriving DecidableEq, Repr

/-! ## External collaborators modelled from the spec -/

/-- Modelled from the spec: `common.hash_password` (password hashing primitive,
out of scope, treated as an external collaborator) — a keyed hash of its
input, rendered as an opaque tag; injective, as collision resistance demands. -/
def hash_password (s : String) : String := "hashed:" ++ s

/-- Modelled from the spec: `common.verify_password` — checks that `hashed`
is the hash of `plain` (the tamper-evident token check: a keyed hash of the
target id, verified on submission against the id field). -/
def verify_password (plain hashed : String) : Bool := hashed == hash_password plain

/-- Modelled from the spec: `common.session_member_key` — the anti-tampering
session key derived from member state (id and registration timestamp). -/
def session_member_key (m : Member) : String :=
  m.mb_id ++ "#" ++ (m.mb_datetime.getD "")

/-! ## `SocialAuthService` lookups (`_bbs/social.py` 296-338) -/

/-- `SocialAuthService.get_member_by_social_id(identifier, provider)`:
first `MemberSocialProfiles` row matching provider and identifier, projected
to its `mb_id`; `None` when absent. -/
def get_member_by_social_id (db : DB) (identifier provider : String) : Option String :=
  (db.profiles.find? fun p => p.provider == provider && p.identifier == identifier).map
    (fun p => p.mb_id)

/-- `SocialAuthService.check_exists_social_id(identifier, provider)` (defined
in the source, never called by any handler). -/
def check_exists_social_id (db : DB) (identifier provider : String) : Bool :=
  (db.profiles.find? fun p => p.provider == provider && p.identifier == identifier).isSome

/-! ## Social registration handler (`post_social_register`, `_bbs/social.py` 190-293) -/

/-- `Config` fields read by the social handlers; `cf_prohibit_id` is passed
through to the policy validators. -/
structure Config where
  cf_social_login_use : Bool := true
  cf_prohibit_id : String := ""
  cf_register_level : Int := 2
  cf_register_point : Int := 0
  deriving DecidableEq, Repr

/-- The session keys `post_social_register` reads. -/
structure SocialSession where
  ss_social_provider : Option String := none
  ss_social_access : Option String := none
  deriving DecidableEq, Repr

/-- The submitted registration form fields the handler reads
(`dataclassform.MemberForm`, blank submitted as `""`). -/
structure MemberForm where
  mb_nick : String := ""
  mb_email : String := ""
  deriving DecidableEq, Repr

/-- The normalized profile produced by the provider adapter's
`convert_gnu_profile_data` (external per-provider code): a
`MemberSocialProfiles` object whose `identifier` carries the provider's
external id. -/
structure ProfileData where
  identifier : String := ""
  profile_url : String := ""
  photourl : String := ""
  deriving DecidableEq, Repr

/-- The `AlertException`s `post_social_register` can raise, in source order. -/
inductive RegAlert
  | socialLoginDisabled
  | invalidSession
  | emptyIdentifier
  | alreadyRegistered
  | useridPolicy (msg : String)
  | invalidEmail
  | emailExists
  | nicknamePolicy (msg : String)
  deriving DecidableEq, Repr

/-- Handler outcome: a raised alert, or the 302 redirect home. -/
inductive RegOutcome
  | alert (a : RegAlert)
  | redirectHome
  deriving DecidableEq, Repr

/-- Python `split('_')`: split a character list at every underscore,
keeping empty pieces. -/
def splitU : List Char → List (List Char)
  | [] => [[]]
  | c :: rest =>
    match splitU rest with
    | [] => [[]]
    | g :: gs => if c = '_' then [] :: g :: gs else (c :: g) :: gs

/-- `gnu_social_id.split('_')[1]` — the fallback nickname for a blank
submission. -/
def fallbackNick (gnu_social_id : String) : String :=
  String.mk ((splitU gnu_social_id.data).getD 1 [])

/-- The `MemberSocialProfiles` row `post_social_register` builds after
validation passes (lines 256-264): both `mb_id` and `identifier` receive
the derived `gnu_social_id`. -/
def socialRegisterProfileRow (gnu_social_id provider_name mb_nick : String)
    (profile : ProfileData) (now : String) : MemberSocialProfiles :=
  { mb_id := gnu_social_id
    provider := provider_name
    identifier := gnu_social_id
    nickname := mb_nick
    profile_url := profile.profile_url
    photourl := profile.photourl
    object_sha := ""
    mp_register_day := now }

/-- The `Member` row `post_social_register` builds after validation passes
(lines 266-274). -/
def socialRegisterMemberRow (gnu_social_id mb_nick mb_email now : String)
    (now_microsecond : Nat) (cf_register_level : Int) : Member :=
  { mb_id := gnu_social_id
    mb_password := hash_password (hash_password (toString now_microsecond))
    mb_name := some mb_nick
    mb_nick := some mb_nick
    mb_email := some mb_email
    mb_datetime := some now
    mb_today_login := some now
    mb_level := some cf_register_level }

/-- `post_social_register(request, member_form, db)`.

The external policy validators (`validate_userid`, `validate_nickname` from
`_bbs/member_profile.py`, returning a message on failure) and the email
syntax check (`common.valid_email`) are collaborator parameters; the
re-fetched, re-normalized profile (from the stored access token) and the
request time are inputs.  The ledger side effect `insert_point` and the
final mail todo touch no row of this model.  Returns the outcome and the
resulting database. -/
def post_social_register (cfg : Config) (sess : SocialSession)
    (validate_userid : String → String → Option String)
    (validate_nickname : String → String → Option String)
    (valid_email : String → Bool)
    (profile : ProfileData) (member_form : MemberForm)
    (now : String) (now_microsecond : Nat) (db : DB) : RegOutcome × DB :=
  if !cfg.cf_social_login_use then (.alert .socialLoginDisabled, db)
  else match sess.ss_social_provider, sess.ss_social_access with
  | some provider_name, some _ =>
    let identifier := profile.identifier
    if identifier = "" then (.alert .emptyIdentifier, db)
    else
      let gnu_social_id := g5_convert_social_id identifier provider_name
      match db.members.find? (fun m => m.mb_id == gnu_social_id) with
      | some _ => (.alert .alreadyRegistered, db)
      | none =>
        match validate_userid gnu_social_id cfg.cf_prohibit_id with
        | some msg => (.alert (.useridPolicy msg), db)
        | none =>
          if !valid_email member_form.mb_email then (.alert .invalidEmail, db)
          else match db.members.find? (fun m => m.mb_email == some member_form.mb_email) with
          | some _ => (.alert .emailExists, db)
          | none =>
            match validate_nickname member_form.mb_nick cfg.cf_prohibit_id with
            | some msg => (.alert (.nicknamePolicy msg), db)
            | none =>
              let mb_nick :=
                if member_form.mb_nick = "" then fallbackNick gnu_social_id
                else member_form.mb_nick
              let member_social_profiles :=
                socialRegisterProfileRow gnu_social_id provider_name mb_nick profile now
              let member :=
                socialRegisterMemberRow gnu_social_id mb_nick member_form.mb_email now
                  now_microsecond cfg.cf_register_level
              (.redirectHome,
               { db with members := db.members ++ [member],
                         profiles := db.profiles ++ [member_social_profiles] })
  | _, _ => (.alert .invalidSession, db)

/-! ## OAuth callback handler (`authorize_social_login`, `_bbs/social.py` 95-157) -/

/-- The responses `authorize_social_login` can produce, in source order:
token-failure alert, empty-identifier alert, dangling-link alert, login
(with `ss_mb_id` and `ss_mb_key` stored in the session), link-attach, and
the redirect to the registration form (with provider and email stashed in
the session). -/
inductive CbOutcome
  | alertRetry
  | alertInvalidProfile
  | alertMemberMissing
  | loginHome (ss_mb_id ss_mb_key : String)
  | linkHome
  | registerForm (ss_social_provider ss_social_email : String)
  deriving DecidableEq, Repr

/-- The raw profile the link path persists: `convert_gnu_profile_data`'s
`MemberSocialProfiles` object before `mb_id` is overwritten.  The external
converter fills `provider` and `identifier` from the provider payload. -/
structure RawProfileRow where
  provider : String := ""
  identifier : String := ""
  nickname : String := ""
  profile_url : String := ""
  photourl : String := ""
  object_sha : String := ""
  mp_register_day : String := ""
  deriving DecidableEq, Repr

/-- `authorize_social_login(request)`.

Inputs: the `provider` query parameter, the token-exchange result
(`get_social_login_token`, `None` on failure), the converter's output
(`social_email` and the profile row), the `ss_social_link` session flag, and
the authenticated member id from `request.state.login_member` (modelled from
the spec: an authenticated member is present iff the session-carried member
id is non-empty).  Returns the response and the resulting database. -/
def authorize_social_login (provider_name : String) (auth_token : Option String)
    (social_email : String) (profile : RawProfileRow)
    (ss_social_link : Bool) (login_mb_id : String) (db : DB) : CbOutcome × DB :=
  match auth_token with
  | none => (.alertRetry, db)
  | some _ =>
    let identifier := profile.identifier
    if identifier = "" then (.alertInvalidProfile, db)
    else
      let gnu_social_id := g5_convert_social_id identifier provider_name
      match get_member_by_social_id db gnu_social_id provider_name with
      | some mb_id =>
        match db.members.find? (fun m => m.mb_id == mb_id) with
        | none => (.alertMemberMissing, db)
        | some member => (.loginHome member.mb_id (session_member_key member), db)
      | none =>
        if ss_social_link && login_mb_id != "" then
          let row : MemberSocialProfiles :=
            { mb_id := login_mb_id
              provider := profile.provider
              identifier := profile.identifier
              nickname := profile.nickname
              profile_url := profile.profile_url
              photourl := profile.photourl
              object_sha := profile.object_sha
              mp_register_day := profile.mp_register_day }
          (.linkHome, { db with profiles := db.profiles ++ [row] })
        else
          (.registerForm provider_name social_email, db)

/-! ## Admin member insert/update handler (`member_form_update`, `_admin/admin_member.py` 49-213) -/

/-- The submitted admin form: `mb_id` and `token` are required, every other
field is `Form(None)` and may be absent. -/
structure AdminForm where
  mb_id : String := ""
  token : String := ""
  mb_password : Option String := none
  mb_name : Option String := none
  mb_nick : Option String := none
  mb_level : Option Int := none
  mb_email : Option String := none
  mb_homepage : Option String := none
  mb_hp : Option String := none
  mb_tel : Option String := none
  mb_certify_case : Option String := none
  mb_certify : Option Int := none
  mb_adult : Option Int := none
  mb_zip : Option String := none
  mb_addr1 : Option String := none
  mb_addr2 : Option String := none
  mb_addr3 : Option String := none
  mb_mailling : Option Int := none
  mb_sms : Option Int := none
  mb_open : Option Int := none
  mb_signature : Option String := none
  mb_profile : Option String := none
  mb_memo : Option String := none
  mb_intercept_date : Option String := none
  mb_leave_date : Option String := none
  mb_1 : Option String := none
  mb_2 : Option String := none
  mb_3 : Option String := none
  mb_4 : Option String := none
  mb_5 : Option String := none
  mb_6 : Option String := none
  mb_7 : Option String := none
  mb_8 : Option String := none
  mb_9 : Option String := none
  mb_10 : Option String := none
  deriving DecidableEq, Repr

/-- Python truthiness of an optional string form value. -/
def strTruthy : Option String → Bool
  | none => false
  | some s => s != ""

/-- Python truthiness of an optional integer form value. -/
def intTruthy : Option Int → Bool
  | none => false
  | some n => n != 0

/-- Python `x if x else ''` on an optional string. -/
def optStr (o : Option String) : String :=
  if strTruthy o then o.getD "" else ""

/-- Python `x if x else 0` on an optional integer. -/
def optInt0 (o : Option Int) : Int :=
  if intTruthy o then o.getD 0 else 0

/-- The `HTTPException`s and the final redirect of `member_form_update`;
each error names the values the source interpolates into its detail. -/
inductive AdminOutcome
  | errorDuplicateId (mb_id : String)
  | errorDuplicateNick (mb_nick : Option String) (owner : String)
  | errorDuplicateEmail (mb_email : Option String) (owner : String)
  | errorInvalidToken
  | errorNotFound (mb_id : String)
  | redirect (mb_id : String)
  deriving DecidableEq, Repr

/-- Which branch the handler takes.  The session value
`ss_member_form_mb_id` is read (line 88) but the branch is decided solely by
`verify_password(mb_id, token)` (line 90; the session-based test on line 89
is commented out in the source): a failing token means insert. -/
inductive UpdateBranch
  | insert
  | update
  deriving DecidableEq, Repr

/-- Branch selection of `member_form_update` (lines 88-90). -/
def member_update_branch (ss_member_form_mb_id mb_id token : String) : UpdateBranch :=
  let _ := ss_member_form_mb_id
  if verify_password mb_id token then .update else .insert

/-- The insert path's new `Member` row (lines 104-154). -/
def insertMember (f : AdminForm) (time_ymdhis : String) : Member :=
  let tmp :=
    if strTruthy f.mb_certify_case && intTruthy f.mb_certify then
      (f.mb_certify_case.getD "", f.mb_adult)
    else ("", some 0)
  let hashed_password :=
    if strTruthy f.mb_password then hash_password (f.mb_password.getD "")
    else hash_password time_ymdhis
  { mb_id := f.mb_id
    mb_password := hashed_password
    mb_name := f.mb_name
    mb_nick := f.mb_nick
    mb_level := f.mb_level
    mb_nick_date := some time_ymdhis
    mb_email := f.mb_email
    mb_homepage := f.mb_homepage
    mb_hp := f.mb_hp
    mb_tel := f.mb_tel
    mb_certify := some tmp.1
    mb_adult := tmp.2
    mb_zip1 := some (if strTruthy f.mb_zip then (f.mb_zip.getD "").take 3 else "")
    mb_zip2 := some (if strTruthy f.mb_zip then (f.mb_zip.getD "").drop 3 else "")
    mb_addr1 := f.mb_addr1
    mb_addr2 := f.mb_addr2
    mb_addr3 := f.mb_addr3
    mb_mailling := f.mb_mailling
    mb_sms := f.mb_sms
    mb_open := f.mb_open
    mb_signature := f.mb_signature
    mb_profile := f.mb_profile
    mb_memo := f.mb_memo
    mb_intercept_date := f.mb_intercept_date
    mb_leave_date := f.mb_leave_date
    mb_1 := f.mb_1
    mb_2 := f.mb_2
    mb_3 := f.mb_3
    mb_4 := f.mb_4
    mb_5 := f.mb_5
    mb_6 := f.mb_6
    mb_7 := f.mb_7
    mb_8 := f.mb_8
    mb_9 := f.mb_9
    mb_10 := f.mb_10
    mb_today_login := some time_ymdhis
    mb_datetime := some time_ymdhis }

/-- The update path's field overwrites on the fetched row (lines 176-210);
`mb_level` alone falls back to `config.cf_register_level` when the form
value is absent or zero, every other absent optional resets to empty/zero. -/
def updateMember (f : AdminForm) (cf_register_level : Int) (time_ymd : String)
    (member : Member) : Member :=
  { member with
    mb_password :=
      if strTruthy f.mb_password then hash_password (f.mb_password.getD "")
      else member.mb_password
    mb_name := some (optStr f.mb_name)
    mb_nick := some (optStr f.mb_nick)
    mb_nick_date := some (if strTruthy f.mb_nick then time_ymd else "")
    mb_email := some (optStr f.mb_email)
    mb_homepage := some (optStr f.mb_homepage)
    mb_level := some (if intTruthy f.mb_level then f.mb_level.getD 0 else cf_register_level)
    mb_hp := some (optStr f.mb_hp)
    mb_tel := some (optStr f.mb_tel)
    mb_certify :=
      some (if strTruthy f.mb_certify_case && (f.mb_certify == some 1) then
              f.mb_certify_case.getD ""
            else "")
    mb_adult := some (optInt0 f.mb_adult)
    mb_zip1 := some (if strTruthy f.mb_zip then (f.mb_zip.getD "").take 3 else "")
    mb_zip2 := some (if strTruthy f.mb_zip then (f.mb_zip.getD "").drop 3 else "")
    mb_addr1 := some (optStr f.mb_addr1)
    mb_addr2 := some (optStr f.mb_addr2)
    mb_addr3 := some (optStr f.mb_addr3)
    mb_mailling := some (optInt0 f.mb_mailling)
    mb_sms := some (optInt0 f.mb_sms)
    mb_open := some (optInt0 f.mb_open)
    mb_signature := some (optStr f.mb_signature)
    mb_profile := some (optStr f.mb_profile)
    mb_memo := some (optStr f.mb_memo)
    mb_intercept_date := some (optStr f.mb_intercept_date)
    mb_leave_date := some (optStr f.mb_leave_date)
    mb_1 := some (optStr f.mb_1)
    mb_2 := some (optStr f.mb_2)
    mb_3 := some (optStr f.mb_3)
    mb_4 := some (optStr f.mb_4)
    mb_5 := some (optStr f.mb_5)
    mb_6 := some (optStr f.mb_6)
    mb_7 := some (optStr f.mb_7)
    mb_8 := some (optStr f.mb_8)
    mb_9 := some (optStr f.mb_9)
    mb_10 := some (optStr f.mb_10) }

/-- Replace the first row satisfying `p` (the ORM mutation of the fetched
object being committed). -/
def replaceFirst (p : Member → Bool) (m' : Member) : List Member → List Member
  | [] => []
  | m :: ms => if p m then m' :: ms else m :: replaceFirst p m' ms

/-- `member_form_update(request, db, mb_id, token, ...)`.

`ss_member_form_mb_id` is the session marker set by the two form views;
`time_ymdhis` / `time_ymd` are the module-level `TIME_YMDHIS` / `TIME_YMD`
server timestamps; `cf_register_level` is `config.cf_register_level` read
on the update path.  Returns the response and the resulting database. -/
def member_form_update (ss_member_form_mb_id : String) (f : AdminForm)
    (cf_register_level : Int) (time_ymdhis time_ymd : String)
    (db : DB) : AdminOutcome × DB :=
  match member_update_branch ss_member_form_mb_id f.mb_id f.token with
  | .insert =>
    match db.members.find? (fun m => m.mb_id == f.mb_id) with
    | some _ => (.errorDuplicateId f.mb_id, db)
    | none =>
      match db.members.find? (fun m => m.mb_nick == f.mb_nick) with
      | some chk => (.errorDuplicateNick f.mb_nick chk.mb_id, db)
      | none =>
        match db.members.find? (fun m => m.mb_email == f.mb_email) with
        | some chk => (.errorDuplicateEmail f.mb_email chk.mb_id, db)
        | none =>
          (.redirect f.mb_id,
           { db with members := db.members ++ [insertMember f time_ymdhis] })
  | .update =>
    if !verify_password f.mb_id f.token then (.errorInvalidToken, db)
    else
      match db.members.find? (fun m => m.mb_id != f.mb_id && m.mb_nick == f.mb_nick) with
      | some chk => (.errorDuplicateNick f.mb_nick chk.mb_id, db)
      | none =>
        match db.members.find? (fun m => m.mb_id != f.mb_id && m.mb_email == f.mb_email) with
        | some chk => (.errorDuplicateEmail f.mb_email chk.mb_id, db)
        | none =>
          match db.members.find? (fun m => m.mb_id == ss_member_form_mb_id) with
          | none => (.errorNotFound f.mb_id, db)
          | some member =>
            let member' := updateMember f cf_register_level time_ymd member
            (.redirect ss_member_form_mb_id,
             { db with members :=
                 replaceFirst (fun m => m.mb_id == ss_member_form_mb_id) member' db.members })

/-! ## Claim theorems -/

set_option maxRecDepth 4000 in
/-- C1: for every identifier and provider, `g5_convert_social_id` equals the
reference composition — MD5 of the identifier as lowercase hex, Adler-32 of
that hex string's bytes, rendered as unpadded lowercase hex without the `0x`
prefix, concatenated as `provider ++ "_" ++ checksum`; it is a pure
function (two calls agree definitionally), and on identifier `"12345"` with
provider `"naver"` it returns the fixed literal `"naver_968d08f6"`.  The
embedded `md5Hex` is pinned against the RFC 1321 test suite, including the
62-character vector (message length 56..63 mod 64, where the zero-padding
run wraps) and the 80-character two-chunk vector. -/
theorem g5_convert_social_id_spec :
    (∀ identifier provider, g5_convert_social_id identifier provider =
      provider ++ "_" ++ natToHex (adler32 (strBytes (md5Hex identifier)))) ∧
    g5_convert_social_id "12345" "naver" = "naver_968d08f6" ∧
    md5Hex "ABCDEFGHIJKLMNOPQRSTUVWXYZabcdefghijklmnopqrstuvwxyz0123456789"
      = "d174ab98d277d9f5a5611c2c9f419d9f" ∧
    md5Hex "12345678901234567890123456789012345678901234567890123456789012345678901234567890"
      = "57edf4a22be3c955ac49da2e2107b67a" :=
  ⟨fun _ _ => rfl, by decide, by decide, by decide⟩

/-- C5 (counterexample): the session edit-target marker `"alice"` is
present, yet the branch taken is the insert path, because the submitted
token is the keyed hash of `"alice"` and does not verify against the
submitted id `"bob"`; concretely, with a member `"bob"` in the database the
handler answers with the insert path's duplicate-id error instead of
updating. -/
theorem member_update_branch_marker_counterexample :
    ("alice" : String) ≠ "" ∧
    member_update_branch "alice" "bob" (hash_password "alice") = .insert ∧
    member_form_update "alice" { mb_id := "bob", token := hash_password "alice" } 2 "t" "d"
        { members := [{ mb_id := "bob" }] }
      = (.errorDuplicateId "bob", { members := [{ mb_id := "bob" }] }) := by
  refine ⟨by decide, by decide, by decide⟩

/-- C5 (amended): the choice between the insert path and the update path in
`member_form_update` is determined by whether the submitted token verifies
against the submitted `mb_id` — verification success means the update path,
failure means the insert path — and is independent of the session
edit-target marker, which only selects the row the update path touches. -/
theorem member_update_branch_token_decides (ss ss' mb_id token : String) :
    (member_update_branch ss mb_id token = .update ↔ verify_password mb_id token = true) ∧
    member_update_branch ss mb_id token = member_update_branch ss' mb_id token := by
  constructor
  · unfold member_update_branch
    split <;> simp_all
  · rfl

/-- C6: when the submitted token does not verify against the submitted
`mb_id` and a member with that id already exists, `member_form_update`
takes the insert path and fails with the duplicate-id error naming the
submitted id, leaving the database unchanged. -/
theorem member_form_update_tampered_token_duplicate_id
    (ss : String) (f : AdminForm) (lvl : Int) (t1 t2 : String) (db : DB)
    (htok : verify_password f.mb_id f.token = false)
    (hmem : ∃ m ∈ db.members, m.mb_id = f.mb_id) :
    member_form_update ss f lvl t1 t2 db = (.errorDuplicateId f.mb_id, db) := by
  obtain ⟨m, hm, hid⟩ := hmem
  have hfind : (db.members.find? (fun m => m.mb_id == f.mb_id)).isSome :=
    List.find?_isSome.mpr ⟨m, hm, by simp [hid]⟩
  obtain ⟨m', hm'⟩ := Option.isSome_iff_exists.mp hfind
  unfold member_form_update member_update_branch
  simp [htok, hm']

/-- C6 (witness): the theorem applied at a tampered-token submission of id
`"bob"` against a database that already holds member `"bob"`. -/
theorem member_form_update_tampered_token_duplicate_id_witness :
    member_form_update "bob" { mb_id := "bob", token := "forged" } 2 "t" "d"
        { members := [{ mb_id := "bob", mb_nick := some "b" }] }
      = (.errorDuplicateId "bob", { members := [{ mb_id := "bob", mb_nick := some "b" }] }) :=
  member_form_update_tampered_token_duplicate_id "bob"
    { mb_id := "bob", token := "forged" } 2 "t" "d"
    { members := [{ mb_id := "bob", mb_nick := some "b" }] }
    (by decide) ⟨{ mb_id := "bob", mb_nick := some "b" }, by decide, rfl⟩

/-- C7: on the update path (token verifies, collision checks pass, the
session-targeted row exists), an absent `mb_level` field stores the
process-wide default registration level `config.cf_register_level`, while an
absent `mb_nick` field stores the empty string. -/
theorem member_form_update_level_nick_asymmetry
    (ss : String) (f : AdminForm) (lvl : Int) (t1 t2 : String) (db : DB) (mem : Member)
    (htok : verify_password f.mb_id f.token = true)
    (hnick : db.members.find? (fun m => m.mb_id != f.mb_id && m.mb_nick == f.mb_nick) = none)
    (hemail : db.members.find? (fun m => m.mb_id != f.mb_id && m.mb_email == f.mb_email) = none)
    (hmem : db.members.find? (fun m => m.mb_id == ss) = some mem)
    (hlevel : f.mb_level = none) (hnickform : f.mb_nick = none) :
    member_form_update ss f lvl t1 t2 db =
      (.redirect ss,
       { db with members := replaceFirst (fun m => m.mb_id == ss) (updateMember f lvl t2 mem) db.members }) ∧
    (updateMember f lvl t2 mem).mb_level = some lvl ∧
    (updateMember f lvl t2 mem).mb_nick = some "" := by
  refine ⟨?_, ?_, ?_⟩
  · unfold member_form_update member_update_branch
    simp [htok, hnick, hemail, hmem]
  · simp [updateMember, hlevel, intTruthy]
  · simp [updateMember, hnickform, optStr, strTruthy]

/-- C7 (witness): the theorem applied at an update submission for `"alice"`
omitting both `mb_level` and `mb_nick`, against a default level of 7. -/
theorem member_form_update_level_nick_asymmetry_witness :
    member_form_update "alice" { mb_id := "alice", token := hash_password "alice" } 7 "t" "d"
        { members := [{ mb_id := "alice", mb_nick := some "old", mb_level := some 9 }] }
      = (.redirect "alice",
         { members := replaceFirst (fun m => m.mb_id == "alice")
             (updateMember { mb_id := "alice", token := hash_password "alice" } 7 "d"
               { mb_id := "alice", mb_nick := some "old", mb_level := some 9 })
             [{ mb_id := "alice", mb_nick := some "old", mb_level := some 9 }] }) ∧
    (updateMember { mb_id := "alice", token := hash_password "alice" } 7 "d"
        { mb_id := "alice", mb_nick := some "old", mb_level := some 9 }).mb_level = some 7 ∧
    (updateMember { mb_id := "alice", token := hash_password "alice" } 7 "d"
        { mb_id := "alice", mb_nick := some "old", mb_level := some 9 }).mb_nick = some "" :=
  member_form_update_level_nick_asymmetry "alice"
    { mb_id := "alice", token := hash_password "alice" } 7 "t" "d"
    { members := [{ mb_id := "alice", mb_nick := some "old", mb_level := some 9 }] }
    { mb_id := "alice", mb_nick := some "old", mb_level := some 9 }
    (by decide) (by decide) (by decide) (by decide) rfl rfl

/-- C2: under the handler's preconditions (social login enabled, session
carrying provider and access token, non-empty identifier), the five
validation checks of `post_social_register` run in the fixed source order —
derived id not yet a member, derived id passes the username policy,
submitted email syntactically valid, submitted email not in use, submitted
nickname passes the nickname policy — and the first failing check raises
its alert with the database unchanged (no Member row, no SocialProfile
row). -/
theorem post_social_register_validation_order
    (cfg : Config) (provider tok : String)
    (vu vn : String → String → Option String) (ve : String → Bool)
    (profile : ProfileData) (form : MemberForm) (now : String) (us : Nat) (db : DB)
    (huse : cfg.cf_social_login_use = true)
    (hid : profile.identifier ≠ "") :
    ((db.members.find? (fun m =>
        m.mb_id == g5_convert_social_id profile.identifier provider)).isSome →
      post_social_register cfg ⟨some provider, some tok⟩ vu vn ve profile form now us db
        = (.alert .alreadyRegistered, db)) ∧
    (∀ msg,
      db.members.find? (fun m =>
        m.mb_id == g5_convert_social_id profile.identifier provider) = none →
      vu (g5_convert_social_id profile.identifier provider) cfg.cf_prohibit_id = some msg →
      post_social_register cfg ⟨some provider, some tok⟩ vu vn ve profile form now us db
        = (.alert (.useridPolicy msg), db)) ∧
    (db.members.find? (fun m =>
        m.mb_id == g5_convert_social_id profile.identifier provider) = none →
      vu (g5_convert_social_id profile.identifier provider) cfg.cf_prohibit_id = none →
      ve form.mb_email = false →
      post_social_register cfg ⟨some provider, some tok⟩ vu vn ve profile form now us db
        = (.alert .invalidEmail, db)) ∧
    (db.members.find? (fun m =>
        m.mb_id == g5_convert_social_id profile.identifier provider) = none →
      vu (g5_convert_social_id profile.identifier provider) cfg.cf_prohibit_id = none →
      ve form.mb_email = true →
      (db.members.find? (fun m => m.mb_email == some form.mb_email)).isSome →
      post_social_register cfg ⟨some provider, some tok⟩ vu vn ve profile form now us db
        = (.alert .emailExists, db)) ∧
    (∀ msg,
      db.members.find? (fun m =>
        m.mb_id == g5_convert_social_id profile.identifier provider) = none →
      vu (g5_convert_social_id profile.identifier provider) cfg.cf_prohibit_id = none →
      ve form.mb_email = true →
      db.members.find? (fun m => m.mb_email == some form.mb_email) = none →
      vn form.mb_nick cfg.cf_prohibit_id = some msg →
      post_social_register cfg ⟨some provider, some tok⟩ vu vn ve profile form now us db
        = (.alert (.nicknamePolicy msg), db)) := by
  refine ⟨?_, ?_, ?_, ?_, ?_⟩
  · intro h1
    obtain ⟨m, hm⟩ := Option.isSome_iff_exists.mp h1
    simp [post_social_register, huse, hid, hm]
  · intro msg h1 h2
    simp [post_social_register, huse, hid, h1, h2]
  · intro h1 h2 h3
    simp [post_social_register, huse, hid, h1, h2, h3]
  · intro h1 h2 h3 h4
    obtain ⟨m, hm⟩ := Option.isSome_iff_exists.mp h4
    simp [post_social_register, huse, hid, h1, h2, h3, hm]
  · intro msg h1 h2 h3 h4 h5
    simp [post_social_register, huse, hid, h1, h2, h3, h4, h5]

/-- C2 (witness): the theorem's fourth conjunct applied where the submitted
email `"a@b.c"` is already owned by member `"x"` — the handler aborts with
the email-exists alert and the database is untouched. -/
theorem post_social_register_validation_order_witness :
    post_social_register { cf_social_login_use := true } ⟨some "naver", some "tok"⟩
        (fun _ _ => none) (fun _ _ => none) (fun _ => true)
        { identifier := "12345" } { mb_nick := "nick", mb_email := "a@b.c" } "now" 1
        { members := [{ mb_id := "x", mb_email := some "a@b.c" }] }
      = (.alert .emailExists, { members := [{ mb_id := "x", mb_email := some "a@b.c" }] }) :=
  (post_social_register_validation_order { cf_social_login_use := true } "naver" "tok"
      (fun _ _ => none) (fun _ _ => none) (fun _ => true)
      { identifier := "12345" } { mb_nick := "nick", mb_email := "a@b.c" } "now" 1
      { members := [{ mb_id := "x", mb_email := some "a@b.c" }] }
      (by decide) (by decide)).2.2.2.1
    (by decide) rfl rfl (by decide)

/-- Helper: the success run of `post_social_register` — when every guard and
all five validation checks pass, the handler appends exactly the one member
row and the one social-profile row it built, and redirects home. -/
theorem post_social_register_success
    (cfg : Config) (provider tok : String)
    (vu vn : String → String → Option String) (ve : String → Bool)
    (profile : ProfileData) (form : MemberForm) (now : String) (us : Nat) (db : DB)
    (huse : cfg.cf_social_login_use = true)
    (hid : profile.identifier ≠ "")
    (h1 : db.members.find? (fun m =>
      m.mb_id == g5_convert_social_id profile.identifier provider) = none)
    (h2 : vu (g5_convert_social_id profile.identifier provider) cfg.cf_prohibit_id = none)
    (h3 : ve form.mb_email = true)
    (h4 : db.members.find? (fun m => m.mb_email == some form.mb_email) = none)
    (h5 : vn form.mb_nick cfg.cf_prohibit_id = none) :
    post_social_register cfg ⟨some provider, some tok⟩ vu vn ve profile form now us db
      = (.redirectHome,
         { db with
           members := db.members ++
             [socialRegisterMemberRow (g5_convert_social_id profile.identifier provider)
               (if form.mb_nick = "" then
                  fallbackNick (g5_convert_social_id profile.identifier provider)
                else form.mb_nick)
               form.mb_email now us cfg.cf_register_level],
           profiles := db.profiles ++
             [socialRegisterProfileRow (g5_convert_social_id profile.identifier provider)
               provider
               (if form.mb_nick = "" then
                  fallbackNick (g5_convert_social_id profile.identifier provider)
                else form.mb_nick)
               profile now] }) := by
  simp [post_social_register, huse, hid, h1, h2, h3, h4, h5]

/-- C4: assuming the coupling the registration path itself maintains (a
social-profile link for the derived pair implies a member row under the
derived id), a registration attempt for a (provider, identifier) pair whose
link already exists is rejected with the already-registered alert and the
database is unchanged; and whenever registration succeeds, no link for the
pair existed before and exactly one exists afterwards — never two. -/
theorem post_social_register_no_second_link
    (cfg : Config) (provider tok : String)
    (vu vn : String → String → Option String) (ve : String → Bool)
    (profile : ProfileData) (form : MemberForm) (now : String) (us : Nat) (db : DB)
    (huse : cfg.cf_social_login_use = true)
    (hid : profile.identifier ≠ "")
    (hcouple : (∃ r ∈ db.profiles,
        r.provider = provider ∧ r.identifier = g5_convert_social_id profile.identifier provider) →
      ∃ m ∈ db.members, m.mb_id = g5_convert_social_id profile.identifier provider) :
    ((∃ r ∈ db.profiles,
        r.provider = provider ∧ r.identifier = g5_convert_social_id profile.identifier provider) →
      post_social_register cfg ⟨some provider, some tok⟩ vu vn ve profile form now us db
        = (.alert .alreadyRegistered, db)) ∧
    ((post_social_register cfg ⟨some provider, some tok⟩ vu vn ve profile form now us db).1
        = .redirectHome →
      db.profiles.countP (fun r =>
        r.provider == provider &&
        r.identifier == g5_convert_social_id profile.identifier provider) = 0 ∧
      (post_social_register cfg ⟨some provider, some tok⟩
          vu vn ve profile form now us db).2.profiles.countP (fun r =>
        r.provider == provider &&
        r.identifier == g5_convert_social_id profile.identifier provider) = 1) := by
  have hreject : (∃ r ∈ db.profiles,
      r.provider = provider ∧ r.identifier = g5_convert_social_id profile.identifier provider) →
      post_social_register cfg ⟨some provider, some tok⟩ vu vn ve profile form now us db
        = (.alert .alreadyRegistered, db) := by
    intro hpair
    obtain ⟨m, hm, hmid⟩ := hcouple hpair
    have hfind : (db.members.find? (fun m =>
        m.mb_id == g5_convert_social_id profile.identifier provider)).isSome :=
      List.find?_isSome.mpr ⟨m, hm, by simp [hmid]⟩
    obtain ⟨m', hm'⟩ := Option.isSome_iff_exists.mp hfind
    simp [post_social_register, huse, hid, hm']
  refine ⟨hreject, ?_⟩
  intro hsucc
  have hnopair : ∀ r ∈ db.profiles,
      ¬(r.provider = provider ∧ r.identifier = g5_convert_social_id profile.identifier provider) := by
    intro r hr hcontra
    have := hreject ⟨r, hr, hcontra⟩
    rw [this] at hsucc
    exact absurd hsucc (by simp)
  have hcount0 : db.profiles.countP (fun r =>
      r.provider == provider &&
      r.identifier == g5_convert_social_id profile.identifier provider) = 0 :=
    List.countP_eq_zero.mpr (fun r hr => by simpa using hnopair r hr)
  refine ⟨hcount0, ?_⟩
  cases h1 : db.members.find? (fun m =>
      m.mb_id == g5_convert_social_id profile.identifier provider) with
  | some m => simp [post_social_register, huse, hid, h1] at hsucc
  | none =>
  cases h2 : vu (g5_convert_social_id profile.identifier provider) cfg.cf_prohibit_id with
  | some msg => simp [post_social_register, huse, hid, h1, h2] at hsucc
  | none =>
  cases h3 : ve form.mb_email with
  | false => simp [post_social_register, huse, hid, h1, h2, h3] at hsucc
  | true =>
  cases h4 : db.members.find? (fun m => m.mb_email == some form.mb_email) with
  | some m => simp [post_social_register, huse, hid, h1, h2, h3, h4] at hsucc
  | none =>
  cases h5 : vn form.mb_nick cfg.cf_prohibit_id with
  | some msg => simp [post_social_register, huse, hid, h1, h2, h3, h4, h5] at hsucc
  | none =>
  rw [post_social_register_success cfg provider tok vu vn ve profile form now us db
    huse hid h1 h2 h3 h4 h5]
  simp [List.countP_append, hcount0, socialRegisterProfileRow, List.countP_cons]

/-- C4 (witness): the theorem's first conjunct applied where a link for
(`"naver"`, derived id of `"12345"`) already exists and is coupled to its
member row — the second attempt is rejected and nothing is written. -/
theorem post_social_register_no_second_link_witness :
    post_social_register { cf_social_login_use := true } ⟨some "naver", some "tok"⟩
        (fun _ _ => none) (fun _ _ => none) (fun _ => true)
        { identifier := "12345" } { mb_nick := "nick", mb_email := "a@b.c" } "now" 1
        { members := [{ mb_id := "naver_968d08f6", mb_email := some "z@b.c" }],
          profiles := [{ mb_id := "naver_968d08f6", provider := "naver",
                         identifier := "naver_968d08f6" }] }
      = (.alert .alreadyRegistered,
         { members := [{ mb_id := "naver_968d08f6", mb_email := some "z@b.c" }],
           profiles := [{ mb_id := "naver_968d08f6", provider := "naver",
                          identifier := "naver_968d08f6" }] }) :=
  (post_social_register_no_second_link { cf_social_login_use := true } "naver" "tok"
      (fun _ _ => none) (fun _ _ => none) (fun _ => true)
      { identifier := "12345" } { mb_nick := "nick", mb_email := "a@b.c" } "now" 1
      { members := [{ mb_id := "naver_968d08f6", mb_email := some "z@b.c" }],
        profiles := [{ mb_id := "naver_968d08f6", provider := "naver",
                       identifier := "naver_968d08f6" }] }
      (by decide) (by decide)
      (fun _ => ⟨{ mb_id := "naver_968d08f6", mb_email := some "z@b.c" }, by decide, by decide⟩)).1
    ⟨{ mb_id := "naver_968d08f6", provider := "naver", identifier := "naver_968d08f6" },
     by decide, by decide, by decide⟩

/-- C9 (counterexample): a concrete successful registration with provider
`"naver"` and external identifier `"12345"` persists a profile row whose
`identifier` field is the derived local id `"naver_968d08f6"`, equal to its
`mb_id` field and different from the provider's external identifier — the
row does not hold the provider-specific identifier as a distinct field. -/
theorem post_social_register_identifier_field_counterexample :
    (post_social_register { cf_social_login_use := true } ⟨some "naver", some "tok"⟩
        (fun _ _ => none) (fun _ _ => none) (fun _ => true)
        { identifier := "12345" } { mb_nick := "nick", mb_email := "a@b.c" } "now" 1
        { }).2.profiles.map (fun r => (r.identifier, r.mb_id))
      = [("naver_968d08f6", "naver_968d08f6")] ∧
    ("naver_968d08f6" : String) ≠ "12345" := by
  refine ⟨by decide, by decide⟩

/-- C9 (amended): for every successful social registration, the persisted
`MemberSocialProfiles` row stores the derived local member id in **both**
its `mb_id` and `identifier` fields; the provider's external identifier is
not itself persisted (whenever it differs from the derived id, the stored
`identifier` field differs from it). -/
theorem post_social_register_identifier_stores_derived_id
    (cfg : Config) (provider tok : String)
    (vu vn : String → String → Option String) (ve : String → Bool)
    (profile : ProfileData) (form : MemberForm) (now : String) (us : Nat) (db : DB)
    (huse : cfg.cf_social_login_use = true)
    (hid : profile.identifier ≠ "")
    (h1 : db.members.find? (fun m =>
      m.mb_id == g5_convert_social_id profile.identifier provider) = none)
    (h2 : vu (g5_convert_social_id profile.identifier provider) cfg.cf_prohibit_id = none)
    (h3 : ve form.mb_email = true)
    (h4 : db.members.find? (fun m => m.mb_email == some form.mb_email) = none)
    (h5 : vn form.mb_nick cfg.cf_prohibit_id = none) :
    (post_social_register cfg ⟨some provider, some tok⟩
        vu vn ve profile form now us db).2.profiles.map
        (fun r => (r.provider, r.identifier, r.mb_id))
      = db.profiles.map (fun r => (r.provider, r.identifier, r.mb_id)) ++
        [(provider, g5_convert_social_id profile.identifier provider,
          g5_convert_social_id profile.identifier provider)] ∧
    (profile.identifier ≠ g5_convert_social_id profile.identifier provider →
      ∀ r ∈ (post_social_register cfg ⟨some provider, some tok⟩
          vu vn ve profile form now us db).2.profiles,
        r ∉ db.profiles → r.identifier ≠ profile.identifier) := by
  rw [post_social_register_success cfg provider tok vu vn ve profile form now us db
    huse hid h1 h2 h3 h4 h5]
  refine ⟨by simp [socialRegisterProfileRow], ?_⟩
  intro hne r hr hnotin
  rcases List.mem_append.mp hr with h | h
  · exact absurd h hnotin
  · have := List.mem_singleton.mp h
    subst this
    simpa [socialRegisterProfileRow] using fun hcontra => hne hcontra.symm

/-- C9 (amended, witness): the theorem applied at the concrete `"naver"` /
`"12345"` registration against an empty database. -/
theorem post_social_register_identifier_stores_derived_id_witness :
    (post_social_register { cf_social_login_use := true } ⟨some "naver", some "tok"⟩
        (fun _ _ => none) (fun _ _ => none) (fun _ => true)
        { identifier := "12345" } { mb_nick := "nick", mb_email := "a@b.c" } "now" 1
        { }).2.profiles.map (fun r => (r.provider, r.identifier, r.mb_id))
      = ([] : List MemberSocialProfiles).map (fun r => (r.provider, r.identifier, r.mb_id)) ++
        [("naver", g5_convert_social_id "12345" "naver", g5_convert_social_id "12345" "naver")] ∧
    (("12345" : String) ≠ g5_convert_social_id "12345" "naver" →
      ∀ r ∈ (post_social_register { cf_social_login_use := true } ⟨some "naver", some "tok"⟩
          (fun _ _ => none) (fun _ _ => none) (fun _ => true)
          { identifier := "12345" } { mb_nick := "nick", mb_email := "a@b.c" } "now" 1
          { }).2.profiles,
        r ∉ ([] : List MemberSocialProfiles) → r.identifier ≠ "12345") :=
  post_social_register_identifier_stores_derived_id { cf_social_login_use := true } "naver" "tok"
    (fun _ _ => none) (fun _ _ => none) (fun _ => true)
    { identifier := "12345" } { mb_nick := "nick", mb_email := "a@b.c" } "now" 1
    { } (by decide) (by decide) rfl rfl rfl rfl rfl

/-- Helper: `splitU` never returns the empty list. -/
theorem splitU_ne_nil (cs : List Char) : splitU cs ≠ [] := by
  cases cs with
  | nil => simp [splitU]
  | cons c rest =>
    simp only [splitU]
    cases splitU rest with
    | nil => simp
    | cons g gs => by_cases hc : c = '_' <;> simp [hc]

/-- Helper: splitting a list without underscores returns it whole. -/
theorem splitU_no_underscore (cs : List Char) (h : '_' ∉ cs) : splitU cs = [cs] := by
  induction cs with
  | nil => rfl
  | cons c rest ih =>
    have hc : ¬(c = '_') := fun hc => h (by simp [hc])
    have hr : '_' ∉ rest := fun hr => h (List.mem_cons_of_mem _ hr)
    simp [splitU, ih hr, hc]

/-- Helper: splitting a list with a leading underscore. -/
theorem splitU_underscore_cons (b : List Char) : splitU ('_' :: b) = [] :: splitU b := by
  have hne := splitU_ne_nil b
  simp only [splitU]
  cases h : splitU b with
  | nil => exact absurd h hne
  | cons g gs => simp

/-- Helper: splitting around the first underscore. -/
theorem splitU_append_underscore (a b : List Char) (ha : '_' ∉ a) :
    splitU (a ++ '_' :: b) = a :: splitU b := by
  induction a with
  | nil => simpa using splitU_underscore_cons b
  | cons c a' ih =>
    have hc : ¬(c = '_') := fun hc => ha (by simp [hc])
    have ha' : '_' ∉ a' := fun h => ha (List.mem_cons_of_mem _ h)
    simp only [List.cons_append, splitU, List.append_eq]
    rw [ih ha']
    simp [hc]

/-- Helper: hex digits are never the underscore character. -/
theorem toHexDigit_ne_underscore (d : Nat) (h : d < 16) : toHexDigit d ≠ '_' := by
  interval_cases d <;> decide

/-- Helper: `natToHexCore` emits only hex digits, never an underscore. -/
theorem natToHexCore_no_underscore (fuel : Nat) :
    ∀ n, '_' ∉ natToHexCore fuel n := by
  induction fuel with
  | zero => intro n; simp [natToHexCore]
  | succ f ih =>
    intro n
    simp only [natToHexCore]
    split
    · simp
    · intro hmem
      rcases List.mem_append.mp hmem with h | h
      · exact ih _ h
      · exact toHexDigit_ne_underscore (n % 16)
          (Nat.mod_lt n (by norm_num)) (List.mem_singleton.mp h).symm

/-- Helper: the rendered checksum contains no underscore. -/
theorem natToHex_no_underscore (n : Nat) : '_' ∉ (natToHex n).data := by
  unfold natToHex
  split
  · decide
  · exact natToHexCore_no_underscore _ _

/-- Helper: rebuilding a string from its characters. -/
theorem string_mk_data (s : String) : String.mk s.data = s := by
  cases s
  rfl

/-- Helper: `gnu_social_id.split('_')[1]` recovers exactly the checksum part
of a derived id whose provider contains no underscore. -/
theorem fallbackNick_g5 (identifier provider : String) (hp : '_' ∉ provider.data) :
    fallbackNick (g5_convert_social_id identifier provider)
      = natToHex (adler32 (strBytes (md5Hex identifier))) := by
  have hhex := natToHex_no_underscore (adler32 (strBytes (md5Hex identifier)))
  have hdata : (g5_convert_social_id identifier provider).data
      = provider.data ++ '_' :: (natToHex (adler32 (strBytes (md5Hex identifier)))).data := by
    simp [g5_convert_social_id, String.data_append]
  rw [fallbackNick, hdata, splitU_append_underscore _ _ hp,
    splitU_no_underscore _ hhex]
  simp [string_mk_data]

/-- C8: with every validation passing and a blank submitted nickname, the
nickname stored on both the new `Member` row and the new
`MemberSocialProfiles` row is the piece of the derived local id after the
`provider_` prefix, i.e. `provider ++ "_" ++ nickname` recomposes the
derived id (provider names, which contain no underscore, split cleanly). -/
theorem post_social_register_blank_nick_fallback
    (cfg : Config) (provider tok : String)
    (vu vn : String → String → Option String) (ve : String → Bool)
    (profile : ProfileData) (form : MemberForm) (now : String) (us : Nat) (db : DB)
    (huse : cfg.cf_social_login_use = true)
    (hid : profile.identifier ≠ "")
    (hp : '_' ∉ provider.data)
    (h1 : db.members.find? (fun m =>
      m.mb_id == g5_convert_social_id profile.identifier provider) = none)
    (h2 : vu (g5_convert_social_id profile.identifier provider) cfg.cf_prohibit_id = none)
    (h3 : ve form.mb_email = true)
    (h4 : db.members.find? (fun m => m.mb_email == some form.mb_email) = none)
    (h5 : vn form.mb_nick cfg.cf_prohibit_id = none)
    (hblank : form.mb_nick = "") :
    fallbackNick (g5_convert_social_id profile.identifier provider)
      = natToHex (adler32 (strBytes (md5Hex profile.identifier))) ∧
    provider ++ "_" ++ fallbackNick (g5_convert_social_id profile.identifier provider)
      = g5_convert_social_id profile.identifier provider ∧
    post_social_register cfg ⟨some provider, some tok⟩ vu vn ve profile form now us db
      = (.redirectHome,
         { db with
           members := db.members ++
             [socialRegisterMemberRow (g5_convert_social_id profile.identifier provider)
               (fallbackNick (g5_convert_social_id profile.identifier provider))
               form.mb_email now us cfg.cf_register_level],
           profiles := db.profiles ++
             [socialRegisterProfileRow (g5_convert_social_id profile.identifier provider)
               provider
               (fallbackNick (g5_convert_social_id profile.identifier provider))
               profile now] }) := by
  refine ⟨fallbackNick_g5 profile.identifier provider hp, ?_, ?_⟩
  · rw [fallbackNick_g5 profile.identifier provider hp]
    rfl
  · rw [post_social_register_success cfg provider tok vu vn ve profile form now us db
      huse hid h1 h2 h3 h4 h5]
    simp [hblank]

/-- C8 (witness): the theorem applied at the `"naver"` / `"12345"`
registration with a blank nickname against an empty database; the stored
nickname is `"968d08f6"`. -/
theorem post_social_register_blank_nick_fallback_witness :
    fallbackNick (g5_convert_social_id "12345" "naver")
      = natToHex (adler32 (strBytes (md5Hex "12345"))) ∧
    "naver" ++ "_" ++ fallbackNick (g5_convert_social_id "12345" "naver")
      = g5_convert_social_id "12345" "naver" ∧
    post_social_register { cf_social_login_use := true } ⟨some "naver", some "tok"⟩
        (fun _ _ => none) (fun _ _ => none) (fun _ => true)
        { identifier := "12345" } { mb_nick := "", mb_email := "a@b.c" } "now" 1 { }
      = (.redirectHome,
         { members := [] ++
             [socialRegisterMemberRow (g5_convert_social_id "12345" "naver")
               (fallbackNick (g5_convert_social_id "12345" "naver")) "a@b.c" "now" 1 2],
           profiles := [] ++
             [socialRegisterProfileRow (g5_convert_social_id "12345" "naver") "naver"
               (fallbackNick (g5_convert_social_id "12345" "naver"))
               { identifier := "12345" } "now"] }) :=
  post_social_register_blank_nick_fallback { cf_social_login_use := true } "naver" "tok"
    (fun _ _ => none) (fun _ _ => none) (fun _ => true)
    { identifier := "12345" } { mb_nick := "", mb_email := "a@b.c" } "now" 1 { }
    (by decide) (by decide) (by decide) rfl rfl rfl rfl rfl rfl

/-- C3: for a callback with a valid token and a non-empty identifier, over a
database in which every social-profile link references an existing member,
exactly one of three outcomes occurs, in priority order: a link for the
derived id exists — login (the member id and the anti-tampering key are
stored) and redirect home; otherwise the link-intent flag is set and an
authenticated member is present — the profile row is attached to that
member and the response redirects home; otherwise the provider and
candidate email are stashed and the response redirects to the registration
form.  In all three cases the other two outcomes do not occur. -/
theorem authorize_social_login_three_outcomes
    (provider tok social_email : String) (profile : RawProfileRow)
    (linkFlag : Bool) (login_mb_id : String) (db : DB)
    (hid : profile.identifier ≠ "")
    (hint : ∀ p ∈ db.profiles, ∃ m ∈ db.members, m.mb_id = p.mb_id) :
    (∀ mid,
      get_member_by_social_id db (g5_convert_social_id profile.identifier provider) provider
        = some mid →
      ∃ key, authorize_social_login provider (some tok) social_email profile
          linkFlag login_mb_id db
        = (.loginHome mid key, db)) ∧
    (get_member_by_social_id db (g5_convert_social_id profile.identifier provider) provider
        = none →
      linkFlag = true → login_mb_id ≠ "" →
      authorize_social_login provider (some tok) social_email profile linkFlag login_mb_id db
        = (.linkHome,
           { db with profiles := db.profiles ++
               [{ mb_id := login_mb_id
                  provider := profile.provider
                  identifier := profile.identifier
                  nickname := profile.nickname
                  profile_url := profile.profile_url
                  photourl := profile.photourl
                  object_sha := profile.object_sha
                  mp_register_day := profile.mp_register_day }] })) ∧
    (get_member_by_social_id db (g5_convert_social_id profile.identifier provider) provider
        = none →
      (linkFlag = false ∨ login_mb_id = "") →
      authorize_social_login provider (some tok) social_email profile linkFlag login_mb_id db
        = (.registerForm provider social_email, db)) := by
  refine ⟨?_, ?_, ?_⟩
  · intro mid hlink
    obtain ⟨p, hpfind, hpmid⟩ : ∃ p,
        db.profiles.find? (fun p =>
          p.provider == provider &&
          p.identifier == g5_convert_social_id profile.identifier provider) = some p ∧
        p.mb_id = mid := by
      unfold get_member_by_social_id at hlink
      cases h : db.profiles.find? (fun p =>
          p.provider == provider &&
          p.identifier == g5_convert_social_id profile.identifier provider) with
      | none => rw [h] at hlink; simp at hlink
      | some p => rw [h] at hlink; exact ⟨p, rfl, by simpa using hlink⟩
    have hpmem : p ∈ db.profiles := List.mem_of_find?_eq_some hpfind
    obtain ⟨m, hm, hmid⟩ := hint p hpmem
    have hfind : (db.members.find? (fun x => x.mb_id == mid)).isSome :=
      List.find?_isSome.mpr ⟨m, hm, by simp [hmid, hpmid]⟩
    obtain ⟨m', hm'⟩ := Option.isSome_iff_exists.mp hfind
    have hmid' : m'.mb_id = mid := by simpa using List.find?_some hm'
    refine ⟨session_member_key m', ?_⟩
    simp [authorize_social_login, hid, hlink, hm', hmid']
  · intro hlink hflag hmember
    simp [authorize_social_login, hid, hlink, hflag, hmember]
  · intro hlink hother
    rcases hother with h | h <;>
      simp [authorize_social_login, hid, hlink, h]

/-- C3 (witness): the theorem's first conjunct applied where the derived id
of (`"12345"`, `"naver"`) is already linked to member `"m1"` — the response
logs `"m1"` in and redirects home. -/
theorem authorize_social_login_three_outcomes_witness :
    ∃ key, authorize_social_login "naver" (some "tok") "a@b.c"
        { identifier := "12345" } false ""
        { members := [{ mb_id := "m1", mb_datetime := some "2024" }],
          profiles := [{ mb_id := "m1", provider := "naver",
                         identifier := "naver_968d08f6" }] }
      = (.loginHome "m1" key,
         { members := [{ mb_id := "m1", mb_datetime := some "2024" }],
           profiles := [{ mb_id := "m1", provider := "naver",
                          identifier := "naver_968d08f6" }] }) :=
  (authorize_social_login_three_outcomes "naver" "tok" "a@b.c"
      { identifier := "12345" } false ""
      { members := [{ mb_id := "m1", mb_datetime := some "2024" }],
        profiles := [{ mb_id := "m1", provider := "naver",
                       identifier := "naver_968d08f6" }] }
      (by decide)
      (fun p hp => ⟨{ mb_id := "m1", mb_datetime := some "2024" }, by decide, by
        simp at hp
        rw [hp]⟩)).1
    "m1" (by decide)

/-- C10: on the update path the row that is read, overwritten, and named in
the final redirect is the one keyed by the session edit-target marker (even
when it differs from the submitted `mb_id`), while the nickname and email
collision checks exclude rows whose id equals the submitted `mb_id`. -/
theorem member_form_update_update_path_targets_session_row
    (ss : String) (f : AdminForm) (lvl : Int) (t1 t2 : String) (db : DB) (mem : Member)
    (htok : verify_password f.mb_id f.token = true)
    (hnick : db.members.find? (fun m => m.mb_id != f.mb_id && m.mb_nick == f.mb_nick) = none)
    (hemail : db.members.find? (fun m => m.mb_id != f.mb_id && m.mb_email == f.mb_email) = none)
    (hmem : db.members.find? (fun m => m.mb_id == ss) = some mem) :
    member_form_update ss f lvl t1 t2 db =
      (.redirect ss,
       { db with members := replaceFirst (fun m => m.mb_id == ss) (updateMember f lvl t2 mem) db.members }) ∧
    mem.mb_id = ss ∧
    (updateMember f lvl t2 mem).mb_id = mem.mb_id ∧
    (∀ m ∈ db.members, m.mb_id ≠ f.mb_id → m.mb_nick ≠ f.mb_nick ∧ m.mb_email ≠ f.mb_email) := by
  refine ⟨?_, ?_, rfl, ?_⟩
  · unfold member_form_update member_update_branch
    simp [htok, hnick, hemail, hmem]
  · have := List.find?_some hmem
    simpa using this
  · intro m hm hne
    constructor
    · intro hn
      have := List.find?_eq_none.mp hnick m hm
      simp [hne, hn] at this
    · intro he
      have := List.find?_eq_none.mp hemail m hm
      simp [hne, he] at this

/-- C10 (witness): the theorem applied where the session targets `"alice"`
but the form submits id `"bob"` with a token keyed to `"bob"`, and the
database's `"bob"` row even shares the submitted nickname — the collision
check ignores it and `"alice"`'s row is the one replaced and named. -/
theorem member_form_update_update_path_targets_session_row_witness :
    member_form_update "alice"
        { mb_id := "bob", token := hash_password "bob",
          mb_nick := some "dup", mb_email := some "new@x" } 2 "t" "d"
        { members := [{ mb_id := "alice", mb_nick := some "old", mb_email := some "a@x" },
                      { mb_id := "bob", mb_nick := some "dup", mb_email := some "b@x" }] }
      = (.redirect "alice",
         { members := replaceFirst (fun m => m.mb_id == "alice")
             (updateMember { mb_id := "bob", token := hash_password "bob",
                             mb_nick := some "dup", mb_email := some "new@x" } 2 "d"
               { mb_id := "alice", mb_nick := some "old", mb_email := some "a@x" })
             [{ mb_id := "alice", mb_nick := some "old", mb_email := some "a@x" },
              { mb_id := "bob", mb_nick := some "dup", mb_email := some "b@x" }] }) ∧
    ({ mb_id := "alice", mb_nick := some "old", mb_email := some "a@x" } : Member).mb_id = "alice" ∧
    (updateMember { mb_id := "bob", token := hash_password "bob",
                    mb_nick := some "dup", mb_email := some "new@x" } 2 "d"
        { mb_id := "alice", mb_nick := some "old", mb_email := some "a@x" }).mb_id
      = ({ mb_id := "alice", mb_nick := some "old", mb_email := some "a@x" } : Member).mb_id ∧
    (∀ m ∈ ({ members := [{ mb_id := "alice", mb_nick := some "old", mb_email := some "a@x" },
                          { mb_id := "bob", mb_nick := some "dup", mb_email := some "b@x" }] } : DB).members,
       m.mb_id ≠ "bob" → m.mb_nick ≠ some "dup" ∧ m.mb_email ≠ some "new@x") :=
  member_form_update_update_path_targets_session_row "alice"
    { mb_id := "bob", token := hash_password "bob",
      mb_nick := some "dup", mb_email := some "new@x" } 2 "t" "d"
    { members := [{ mb_id := "alice", mb_nick := some "old", mb_email := some "a@x" },
                  { mb_id := "bob", mb_nick := some "dup", mb_email := some "b@x" }] }
    { mb_id := "alice", mb_nick := some "old", mb_email := some "a@x" }
    (by decide) (by decide) (by decide) (by decide)

end G6
